import Mathlib

/-!
Verification of the bdc-stac route layer (`bdc_stac/routes.py`): the
response post-processing filter (`after_request`), the error handlers
(`handle_exception`, `handle_exception_bbox`), the search-request
normalization of `stac_search`, and the pagination-link assembly of
`stac_search` and `collection_items`.

Python values are embedded as follows: byte strings become `List Nat`,
HTTP header multi-maps become ordered lists of key/value pairs with
the case-insensitive key semantics of werkzeug, JSON values become the
inductive `JValue`, and fallible code returns `Except PyExc`.
-/

set_option maxRecDepth 100000

namespace BdcStac

/-! ## Python / werkzeug primitives -/

/-- Boolean prefix test on character lists. -/
def listHasPrefixChars : List Char → List Char → Bool
  | [], _ => true
  | _ :: _, [] => false
  | a :: as, b :: bs => a == b && listHasPrefixChars as bs

/-- Boolean substring test on character lists: the needle occurs
contiguously somewhere in the haystack. -/
def listInfixChars (needle : List Char) : List Char → Bool
  | [] => needle.isEmpty
  | c :: rest => listHasPrefixChars needle (c :: rest) || listInfixChars needle rest

/-- Python `str.lower` and werkzeug key lowering: character-wise
lowercasing (the inputs involved here are ASCII). -/
def pyLower (s : String) : String := ⟨s.toList.map Char.toLower⟩

/-- The Python test `needle in haystack` on strings: substring containment.
The empty needle is contained in everything. -/
def pyInStr (needle hay : String) : Bool :=
  listInfixChars needle.toList hay.toList

/-- A werkzeug `Headers` multi-map: an ordered list of key/value pairs.
Key lookups are case-insensitive, as in werkzeug. -/
structure Headers where
  entries : List (String × String)
deriving Repr, DecidableEq

/-- werkzeug `Headers.add`: append a new header pair at the end. -/
def Headers.add (h : Headers) (k v : String) : Headers :=
  ⟨h.entries ++ [(k, v)]⟩

/-- werkzeug `key in headers`: case-insensitive key membership. -/
def Headers.containsKey (h : Headers) (k : String) : Bool :=
  h.entries.any (fun p => pyLower p.1 == pyLower k)

/-- werkzeug `headers.get(key)`: first value stored under the key,
compared case-insensitively. -/
def Headers.get (h : Headers) (k : String) : Option String :=
  (h.entries.find? (fun p => pyLower p.1 == pyLower k)).map Prod.snd

/-- Core of werkzeug `Headers.__setitem__`: replace the first pair whose
key matches (case-insensitively) in place, drop any later pairs with the
same key; append if the key is absent. -/
def setEntries : List (String × String) → String → String → List (String × String)
  | [], k, v => [(k, v)]
  | (k0, v0) :: rest, k, v =>
    if pyLower k0 == pyLower k then
      (k, v) :: rest.filter (fun p => !(pyLower p.1 == pyLower k))
    else
      (k0, v0) :: setEntries rest k v

/-- werkzeug `headers[key] = value`. -/
def Headers.set (h : Headers) (k v : String) : Headers :=
  ⟨setEntries h.entries k v⟩

/-- Number of stored pairs whose key matches case-insensitively. -/
def Headers.countKey (h : Headers) (k : String) : Nat :=
  h.entries.countP (fun p => pyLower p.1 == pyLower k)

/-- A Flask `Response` as used by `after_request`: status code, the
`direct_passthrough` flag, the body bytes (`get_data()`), and headers. -/
structure Response where
  status_code : Nat
  direct_passthrough : Bool
  data : List Nat
  headers : Headers
deriving Repr, DecidableEq

/-! ## The after-request filter (`routes.py`, `after_request`) -/

/-- The three unconditional CORS `headers.add` calls performed by
`after_request` before the compression guard. -/
def corsHeaders (h : Headers) : Headers :=
  ((h.add "Access-Control-Allow-Origin" "*").add
    "Access-Control-Allow-Headers" "Content-Type").add
    "Access-Control-Allow-Methods" "GET, POST"

/-- `after_request` from `routes.py`, parametrized by the external
`gzip.compress(-, compresslevel=4)` function (its byte-level output is
a black box to this layer) and by the `Accept-Encoding` header of the request. -/
def after_request (gzipCompress : List Nat → List Nat) (accept_encoding : String)
    (response : Response) : Response :=
  let response := { response with headers := corsHeaders response.headers }
  if decide (response.status_code < 200) || decide (300 ≤ response.status_code)
      || response.direct_passthrough || decide (response.data.length < 500)
      || !(pyInStr "gzip" (pyLower accept_encoding))
      || response.headers.containsKey "Content-Encoding" then
    response
  else
    let compressed_data := gzipCompress response.data
    let response := { response with data := compressed_data }
    let response := { response with headers := response.headers.set "Content-Encoding" "gzip" }
    { response with headers := response.headers.set "Content-Length" (toString response.data.length) }

example :
    after_request (fun _ => [0]) "gzip"
      ⟨200, false, List.replicate 500 7, ⟨[]⟩⟩ =
      ⟨200, false, [0],
        (corsHeaders ⟨[]⟩ |>.set "Content-Encoding" "gzip").set "Content-Length" "1"⟩ := by
  rfl

example :
    after_request (fun _ => [0]) "gzip"
      ⟨200, false, List.replicate 499 7, ⟨[]⟩⟩ =
      ⟨200, false, List.replicate 499 7, corsHeaders ⟨[]⟩⟩ := by
  rfl

/-! ## Header lemmas -/

theorem containsKey_add (h : Headers) (k v k2 : String) :
    (h.add k v).containsKey k2 = (h.containsKey k2 || (pyLower k == pyLower k2)) := by
  simp [Headers.add, Headers.containsKey]

theorem corsHeaders_containsKey_contentEncoding (h : Headers) :
    (corsHeaders h).containsKey "Content-Encoding" = h.containsKey "Content-Encoding" := by
  have h1 : (pyLower "Access-Control-Allow-Origin" == pyLower "Content-Encoding") = false := by decide
  have h2 : (pyLower "Access-Control-Allow-Headers" == pyLower "Content-Encoding") = false := by decide
  have h3 : (pyLower "Access-Control-Allow-Methods" == pyLower "Content-Encoding") = false := by decide
  simp [corsHeaders, containsKey_add, h1, h2, h3]

theorem countKey_add (h : Headers) (k v k2 : String) :
    (h.add k v).countKey k2 = h.countKey k2 + (if pyLower k == pyLower k2 then 1 else 0) := by
  simp [Headers.add, Headers.countKey, List.countP_append, List.countP_cons]

theorem corsHeaders_countKey_contentEncoding (h : Headers) :
    (corsHeaders h).countKey "Content-Encoding" = h.countKey "Content-Encoding" := by
  have h1 : (pyLower "Access-Control-Allow-Origin" == pyLower "Content-Encoding") = false := by decide
  have h2 : (pyLower "Access-Control-Allow-Headers" == pyLower "Content-Encoding") = false := by decide
  have h3 : (pyLower "Access-Control-Allow-Methods" == pyLower "Content-Encoding") = false := by decide
  simp [corsHeaders, countKey_add, h1, h2, h3]

theorem setEntries_find_same (l : List (String × String)) (k v : String) :
    (setEntries l k v).find? (fun p => pyLower p.1 == pyLower k) = some (k, v) := by
  induction l with
  | nil => simp [setEntries, List.find?]
  | cons q rest ih =>
    by_cases hq : (pyLower q.1 == pyLower k) = true
    · simp [setEntries, hq, List.find?]
    · simp only [setEntries, Bool.not_eq_true] at hq ⊢
      cases q with
      | mk k0 v0 =>
        simp only at hq
        simp [hq, List.find?, ih]

theorem get_set_same (h : Headers) (k v : String) :
    (h.set k v).get k = some v := by
  simp [Headers.set, Headers.get, setEntries_find_same]

theorem find_filter_other (l : List (String × String)) (k k2 : String)
    (hne : pyLower k2 ≠ pyLower k) :
    (l.filter (fun p => !(pyLower p.1 == pyLower k))).find? (fun p => pyLower p.1 == pyLower k2) =
      l.find? (fun p => pyLower p.1 == pyLower k2) := by
  induction l with
  | nil => simp
  | cons q rest ih =>
    by_cases hq2 : (pyLower q.1 == pyLower k2) = true
    · have hqk : (pyLower q.1 == pyLower k) = false := by
        rcases eq_of_beq hq2 with h
        exact beq_eq_false_iff_ne.mpr (h ▸ hne)
      simp [List.filter, hqk, List.find?, hq2]
    · by_cases hqk : (pyLower q.1 == pyLower k) = true
      · simp [List.filter, hqk, List.find?, hq2, ih]
      · simp only [Bool.not_eq_true] at hqk
        simp [List.filter, hqk, List.find?, hq2, ih]

theorem setEntries_find_other (l : List (String × String)) (k v k2 : String)
    (hne : pyLower k2 ≠ pyLower k) :
    (setEntries l k v).find? (fun p => pyLower p.1 == pyLower k2) =
      l.find? (fun p => pyLower p.1 == pyLower k2) := by
  have hkk2 : (pyLower k == pyLower k2) = false := by
    exact beq_eq_false_iff_ne.mpr (fun h => hne h.symm)
  induction l with
  | nil => simp [setEntries, List.find?, hkk2]
  | cons q rest ih =>
    cases q with
    | mk k0 v0 =>
      by_cases hq : (pyLower k0 == pyLower k) = true
      · have hk0 : pyLower k0 = pyLower k := eq_of_beq hq
        have hq2 : (pyLower k0 == pyLower k2) = false := by
          exact beq_eq_false_iff_ne.mpr (fun h => hne (hk0 ▸ h).symm)
        simp [setEntries, hq, List.find?, hkk2, hq2, find_filter_other rest k k2 hne]
      · simp only [Bool.not_eq_true] at hq
        simp [setEntries, hq, List.find?, ih]

theorem get_set_other (h : Headers) (k v k2 : String) (hne : pyLower k2 ≠ pyLower k) :
    (h.set k v).get k2 = h.get k2 := by
  simp [Headers.set, Headers.get, setEntries_find_other h.entries k v k2 hne]

theorem setEntries_contains (l : List (String × String)) (k v : String) :
    (setEntries l k v).any (fun p => pyLower p.1 == pyLower k) = true := by
  induction l with
  | nil => simp [setEntries]
  | cons q rest ih =>
    cases q with
    | mk k0 v0 =>
      by_cases hq : (pyLower k0 == pyLower k) = true
      · simp [setEntries, hq]
      · simp only [Bool.not_eq_true] at hq
        simp [setEntries, hq, ih]

theorem containsKey_set_same (h : Headers) (k v : String) :
    (h.set k v).containsKey k = true := by
  simp [Headers.set, Headers.containsKey, setEntries_contains]

theorem any_of_find?_some {α : Type} (pred : α → Bool) (a : α) :
    ∀ l : List α, l.find? pred = some a → l.any pred = true := by
  intro l
  induction l with
  | nil => simp
  | cons q rest ih =>
    intro hfind
    by_cases hq : pred q = true
    · simp [hq]
    · simp only [Bool.not_eq_true] at hq
      simp only [List.find?, hq] at hfind
      simp [hq, ih hfind]

theorem containsKey_of_get_some (h : Headers) (k v : String) (hget : h.get k = some v) :
    h.containsKey k = true := by
  simp only [Headers.get, Option.map_eq_some'] at hget
  obtain ⟨p, hfind, -⟩ := hget
  exact any_of_find?_some _ p h.entries hfind

/-! ## The compression guard of `after_request`, named for the proofs -/

/-- The disjunctive guard of `after_request` (the response returned
unmodified when it holds), evaluated on the CORS-augmented response as in
the source. -/
def compressGuard (accept_encoding : String) (r : Response) : Bool :=
  decide (r.status_code < 200) || decide (300 ≤ r.status_code)
    || r.direct_passthrough || decide (r.data.length < 500)
    || !(pyInStr "gzip" (pyLower accept_encoding))
    || (corsHeaders r.headers).containsKey "Content-Encoding"

theorem after_request_unfold (gz : List Nat → List Nat) (ae : String) (r : Response) :
    after_request gz ae r =
      if compressGuard ae r then { r with headers := corsHeaders r.headers }
      else { r with data := gz r.data,
                    headers := ((corsHeaders r.headers).set "Content-Encoding" "gzip").set
                      "Content-Length" (toString (gz r.data).length) } := rfl

theorem compressGuard_eq_false_iff (ae : String) (r : Response) :
    compressGuard ae r = false ↔
      (200 ≤ r.status_code ∧ r.status_code < 300 ∧ r.direct_passthrough = false ∧
        500 ≤ r.data.length ∧ pyInStr "gzip" (pyLower ae) = true ∧
        r.headers.containsKey "Content-Encoding" = false) := by
  simp [compressGuard, corsHeaders_containsKey_contentEncoding, Bool.or_eq_false_iff,
    decide_eq_false_iff_not, not_lt, not_le, Bool.not_eq_true', and_assoc]

theorem compressGuard_cors (ae : String) (r : Response) :
    compressGuard ae { r with headers := corsHeaders r.headers } = compressGuard ae r := by
  simp only [compressGuard]
  rw [corsHeaders_containsKey_contentEncoding, corsHeaders_containsKey_contentEncoding]

theorem data_of_guard_true (gz : List Nat → List Nat) (ae : String) (r : Response)
    (hg : compressGuard ae r = true) : (after_request gz ae r).data = r.data := by
  rw [after_request_unfold]; simp [hg]

/-! ## Claims about the after-request filter -/

/-- C1: `after_request` gzip-compresses the body iff the status code is in
the range 200 to 299, the response is not a direct passthrough, the body is
at least 500 bytes, the Accept-Encoding header case-insensitively contains
the word gzip, and no Content-Encoding header is already set; on
compression it sets Content-Encoding to gzip and Content-Length to the
byte length of the compressed body. -/
theorem c1_after_request_compress_iff (gz : List Nat → List Nat) (ae : String) (r : Response) :
    ((200 ≤ r.status_code ∧ r.status_code < 300 ∧ r.direct_passthrough = false ∧
        500 ≤ r.data.length ∧ pyInStr "gzip" (pyLower ae) = true ∧
        r.headers.containsKey "Content-Encoding" = false) →
      ((after_request gz ae r).data = gz r.data ∧
        (after_request gz ae r).headers.get "Content-Encoding" = some "gzip" ∧
        (after_request gz ae r).headers.get "Content-Length" =
          some (toString (gz r.data).length))) ∧
    (¬ (200 ≤ r.status_code ∧ r.status_code < 300 ∧ r.direct_passthrough = false ∧
        500 ≤ r.data.length ∧ pyInStr "gzip" (pyLower ae) = true ∧
        r.headers.containsKey "Content-Encoding" = false) →
      (after_request gz ae r).data = r.data) := by
  constructor
  · intro hc
    have hg : compressGuard ae r = false := (compressGuard_eq_false_iff ae r).mpr hc
    rw [after_request_unfold, if_neg (by simp [hg])]
    refine ⟨rfl, ?_, get_set_same _ _ _⟩
    rw [get_set_other _ _ _ _ (by decide), get_set_same]
  · intro hn
    have hg : compressGuard ae r = true := by
      cases hgb : compressGuard ae r with
      | false => exact absurd ((compressGuard_eq_false_iff ae r).mp hgb) hn
      | true => rfl
    exact data_of_guard_true gz ae r hg

/-- Witness for C1: a 500-byte 200-status response with Accept-Encoding
gzip is compressed; a 404 response is not. -/
theorem c1_witness :
    (after_request (fun _ => [1, 2, 3]) "gzip" ⟨200, false, List.replicate 500 7, ⟨[]⟩⟩).data
        = [1, 2, 3] ∧
    (after_request (fun _ => [1, 2, 3]) "gzip" ⟨200, false, List.replicate 500 7, ⟨[]⟩⟩).headers.get
        "Content-Length" = some "3" ∧
    (after_request (fun _ => [1, 2, 3]) "gzip" ⟨404, false, List.replicate 500 7, ⟨[]⟩⟩).data
        = List.replicate 500 7 := by
  have h1 := c1_after_request_compress_iff (fun _ => [1, 2, 3]) "gzip"
    ⟨200, false, List.replicate 500 7, ⟨[]⟩⟩
  have h2 := c1_after_request_compress_iff (fun _ => [1, 2, 3]) "gzip"
    ⟨404, false, List.replicate 500 7, ⟨[]⟩⟩
  exact ⟨(h1.1 (by decide)).1, (h1.1 (by decide)).2.2, h2.2 (by decide)⟩

/-- C8 counterexample: the filter does not leave the headers unchanged on a
small-body failing response — it unconditionally appends the three CORS
headers (the body is indeed unchanged). -/
theorem c8_counterexample :
    ¬ ((after_request (fun d => d) "" ⟨404, false, [], ⟨[]⟩⟩).headers =
        (⟨404, false, [], ⟨[]⟩⟩ : Response).headers ∧
      (after_request (fun d => d) "" ⟨404, false, [], ⟨[]⟩⟩).data =
        (⟨404, false, [], ⟨[]⟩⟩ : Response).data) := by
  decide

/-- C8 (amended): on a response whose status is outside the range 200 to
299, or that is a direct passthrough, or whose body is under 500 bytes,
`after_request` leaves the body unchanged and alters the headers only by
appending the three fixed CORS headers. -/
theorem c8_after_request_frame (gz : List Nat → List Nat) (ae : String) (r : Response)
    (h : r.status_code < 200 ∨ 300 ≤ r.status_code ∨ r.direct_passthrough = true ∨
      r.data.length < 500) :
    after_request gz ae r = { r with headers := corsHeaders r.headers } := by
  have hg : compressGuard ae r = true := by
    rcases h with h | h | h | h
    · simp [compressGuard, h]
    · simp [compressGuard, h]
    · simp [compressGuard, h]
    · simp [compressGuard, h]
  rw [after_request_unfold]
  simp [hg]

/-- Witness for C8 at a concrete 404 response. -/
theorem c8_witness :
    after_request (fun d => d) "" ⟨404, false, [], ⟨[]⟩⟩ =
      ⟨404, false, [], corsHeaders ⟨[]⟩⟩ :=
  c8_after_request_frame (fun d => d) "" ⟨404, false, [], ⟨[]⟩⟩ (Or.inr (Or.inl (by decide)))

/-- C9 counterexample: a 500-byte 200-status direct-passthrough response
with Accept-Encoding gzip is not compressed, so a 500-byte success body
with gzip accepted is not always compressed. -/
theorem c9_counterexample :
    (after_request (fun _ => [0]) "gzip" ⟨200, true, List.replicate 500 7, ⟨[]⟩⟩).headers.get
        "Content-Encoding" = none ∧
    (after_request (fun _ => [0]) "gzip" ⟨200, true, List.replicate 500 7, ⟨[]⟩⟩).data =
      List.replicate 500 7 := by
  decide

/-- C9 (amended): a response already carrying a Content-Encoding header
keeps its body and gains no second Content-Encoding value; a 499-byte body
is never compressed; a non-passthrough 500-byte success body with gzip
accepted and no prior Content-Encoding is always compressed, with
Content-Length equal to the compressed byte length; and a second
application of the filter never changes the body again. -/
theorem c9_after_request_idempotent (gz : List Nat → List Nat) (ae : String) (r : Response) :
    (r.headers.containsKey "Content-Encoding" = true →
      (after_request gz ae r).data = r.data ∧
      (after_request gz ae r).headers.countKey "Content-Encoding" =
        r.headers.countKey "Content-Encoding") ∧
    (r.data.length = 499 → (after_request gz ae r).data = r.data) ∧
    ((200 ≤ r.status_code ∧ r.status_code < 300 ∧ r.direct_passthrough = false ∧
        r.data.length = 500 ∧ pyInStr "gzip" (pyLower ae) = true ∧
        r.headers.containsKey "Content-Encoding" = false) →
      (after_request gz ae r).data = gz r.data ∧
      (after_request gz ae r).headers.get "Content-Length" =
        some (toString (gz r.data).length) ∧
      (after_request gz ae r).headers.get "Content-Encoding" = some "gzip") ∧
    (after_request gz ae (after_request gz ae r)).data = (after_request gz ae r).data := by
  refine ⟨?_, ?_, ?_, ?_⟩
  · intro hce
    have hg : compressGuard ae r = true := by
      simp [compressGuard, corsHeaders_containsKey_contentEncoding, hce]
    rw [after_request_unfold, if_pos hg]
    exact ⟨rfl, corsHeaders_countKey_contentEncoding r.headers⟩
  · intro hlen
    have hg : compressGuard ae r = true := by simp [compressGuard, hlen]
    exact data_of_guard_true gz ae r hg
  · rintro ⟨h1, h2, h3, h4, h5, h6⟩
    have hg : compressGuard ae r = false :=
      (compressGuard_eq_false_iff ae r).mpr ⟨h1, h2, h3, by omega, h5, h6⟩
    rw [after_request_unfold, if_neg (by simp [hg])]
    refine ⟨rfl, get_set_same _ _ _, ?_⟩
    rw [get_set_other _ _ _ _ (by decide), get_set_same]
  · cases hgb : compressGuard ae r with
    | true =>
      have e1 : after_request gz ae r = { r with headers := corsHeaders r.headers } := by
        rw [after_request_unfold]; simp [hgb]
      apply data_of_guard_true
      rw [e1, compressGuard_cors]
      exact hgb
    | false =>
      apply data_of_guard_true
      have e1 : after_request gz ae r =
          { r with data := gz r.data,
                   headers := ((corsHeaders r.headers).set "Content-Encoding" "gzip").set
                     "Content-Length" (toString (gz r.data).length) } := by
        rw [after_request_unfold]; simp [hgb]
      rw [e1]
      have hce : (((corsHeaders r.headers).set "Content-Encoding" "gzip").set
          "Content-Length" (toString (gz r.data).length)).containsKey "Content-Encoding" = true := by
        apply containsKey_of_get_some _ _ "gzip"
        rw [get_set_other _ _ _ _ (by decide), get_set_same]
      simp [compressGuard, corsHeaders_containsKey_contentEncoding, hce]

/-- Witness for C9 at concrete 499-byte, 500-byte, and already-encoded
responses. -/
theorem c9_witness :
    (after_request (fun _ => [0]) "gzip" ⟨200, false, List.replicate 499 7, ⟨[]⟩⟩).data =
      List.replicate 499 7 ∧
    (after_request (fun _ => [0]) "gzip" ⟨200, false, List.replicate 500 7, ⟨[]⟩⟩).data = [0] ∧
    (after_request (fun _ => [0]) "gzip"
      ⟨200, false, [1], ⟨[("Content-Encoding", "gzip")]⟩⟩).data = [1] := by
  have h1 := c9_after_request_idempotent (fun _ => [0]) "gzip"
    ⟨200, false, List.replicate 499 7, ⟨[]⟩⟩
  have h2 := c9_after_request_idempotent (fun _ => [0]) "gzip"
    ⟨200, false, List.replicate 500 7, ⟨[]⟩⟩
  have h3 := c9_after_request_idempotent (fun _ => [0]) "gzip"
    ⟨200, false, [1], ⟨[("Content-Encoding", "gzip")]⟩⟩
  exact ⟨h1.2.1 (by decide), (h2.2.2.1 (by decide)).1, (h3.1 (by decide)).1⟩

/-! ## Error taxonomy and handlers (`routes.py`, `handle_exception`,
`handle_exception_bbox`) -/

/-- Python exceptions as they reach the Flask error handlers: `http` is
any werkzeug `HTTPException` (its status code and description),
`invalidBBox` the domain error, `other` any other exception (such as the
ValueError raised by `int`). Modelled from the spec for the class outside
src: `InvalidBoundingBoxError`, defined in the data module, is a
domain-specific non-HTTP failure carrying a message. -/
inductive PyExc where
  | http (code : Nat) (description : String)
  | invalidBBox (message : String)
  | other (message : String)
deriving Repr, DecidableEq

/-- Modelled from the spec: the `code` attribute of the external werkzeug
`InternalServerError` class. -/
def internalServerErrorCode : Nat := 500

/-- Modelled from the spec: the `description` attribute of the external
werkzeug `InternalServerError` class, the fixed generic internal-error
message (the spec renders it as the phrase below). -/
def internalServerErrorDescription : String := "Internal Server Error"

/-- An error body `code`: an HTTP status integer or a domain string code. -/
inductive ErrCode where
  | num (n : Nat)
  | str (s : String)
deriving Repr, DecidableEq

/-- The JSON error body (`code`, `description`) plus the HTTP status the
handler returns alongside it. -/
structure ErrorResponse where
  code : ErrCode
  description : String
  status : Nat
deriving Repr, DecidableEq

/-- `handle_exception` from `routes.py`: an `HTTPException` keeps its code
and description as body and status; everything else is logged and becomes
the generic internal server error. -/
def handle_exception : PyExc → ErrorResponse
  | .http c d => ⟨.num c, d, c⟩
  | _ => ⟨.num internalServerErrorCode, internalServerErrorDescription,
      internalServerErrorCode⟩

/-- `handle_exception_bbox` from `routes.py`: body code is the string
form of 400, description is the exception message, status 400. -/
def handle_exception_bbox (message : String) : ErrorResponse :=
  ⟨.str "400", message, 400⟩

/-- Flask error-handler dispatch over the two registered handlers: the
handler registered for the most specific exception class wins, so an
`InvalidBoundingBoxError` goes to `handle_exception_bbox` and anything
else to the generic `handle_exception` (modelled from the spec sentence
that the bounding-box branch takes priority, which matches the documented
Flask specificity rule). -/
def dispatch_error : PyExc → ErrorResponse
  | .invalidBBox m => handle_exception_bbox m
  | e => handle_exception e

/-- C3: at the generic handler, a structured HTTP failure is reshaped to
its own code and description with the same status; any other failure
becomes exactly the fixed generic 500 body, independent of the content of the
failure, so nothing of the cause reaches the caller. -/
theorem c3_handle_exception_shape (e : PyExc) :
    (∀ c d, e = .http c d → handle_exception e = ⟨.num c, d, c⟩) ∧
    ((∀ c d, e ≠ .http c d) →
      handle_exception e = ⟨.num 500, internalServerErrorDescription, 500⟩) := by
  constructor
  · rintro c d rfl
    rfl
  · intro hne
    cases e with
    | http c d => exact absurd rfl (hne c d)
    | invalidBBox m => rfl
    | other m => rfl

/-- Witness for C3 at a concrete HTTP failure and a concrete unexpected
failure. -/
theorem c3_witness :
    handle_exception (.http 404 "Collection not found.") =
      ⟨.num 404, "Collection not found.", 404⟩ ∧
    handle_exception (.other "boom") =
      ⟨.num 500, internalServerErrorDescription, 500⟩ :=
  ⟨(c3_handle_exception_shape (.http 404 "Collection not found.")).1 404
      "Collection not found." rfl,
    (c3_handle_exception_shape (.other "boom")).2
      (fun _ _ h => PyExc.noConfusion h)⟩

/-- C4: an `InvalidBoundingBoxError` is dispatched to the bounding-box
handler ahead of the generic one, and the response body carries the
string code 400 (not the integer), the error message, and HTTP status
400 — unlike what the generic handler would have produced. -/
theorem c4_bbox_handler (m : String) :
    dispatch_error (.invalidBBox m) = ⟨.str "400", m, 400⟩ ∧
    dispatch_error (.invalidBBox m) = handle_exception_bbox m ∧
    dispatch_error (.invalidBBox m) ≠ handle_exception (.invalidBBox m) := by
  refine ⟨rfl, rfl, ?_⟩
  intro h
  simpa [dispatch_error, handle_exception_bbox, handle_exception] using congrArg ErrorResponse.code h

/-- Witness for C4 at a concrete bounding-box failure. -/
theorem c4_witness :
    dispatch_error (.invalidBBox "bbox must contain 4 values.") =
      ⟨.str "400", "bbox must contain 4 values.", 400⟩ :=
  (c4_bbox_handler "bbox must contain 4 values.").1

/-! ## JSON values and the Python primitives used by `stac_search` -/

/-- A parsed JSON value as the route sees it (`request.get_json()`).
Numbers are restricted to integers, the only numeric values whose exact
Python string rendering this model relies on. -/
inductive JValue where
  | null
  | bool (b : Bool)
  | num (n : Int)
  | str (s : String)
  | arr (elems : List JValue)
  | obj (fields : List (String × JValue))

mutual

/-- Python `repr` of an embedded value, used by `str` on containers. -/
def pyRepr : JValue → String
  | .null => "None"
  | .bool true => "True"
  | .bool false => "False"
  | .num n => toString n
  | .str s => "\x27" ++ s ++ "\x27"
  | .arr es => "[" ++ pyReprElems es ++ "]"
  | .obj fs => "\x7b" ++ pyReprFields fs ++ "\x7d"

/-- Comma-separated `repr` renderings of list elements. -/
def pyReprElems : List JValue → String
  | [] => ""
  | [v] => pyRepr v
  | v :: vs => pyRepr v ++ ", " ++ pyReprElems vs

/-- Comma-separated `repr` renderings of dict entries. -/
def pyReprFields : List (String × JValue) → String
  | [] => ""
  | [(k, v)] => "\x27" ++ k ++ "\x27: " ++ pyRepr v
  | (k, v) :: fs => "\x27" ++ k ++ "\x27: " ++ pyRepr v ++ ", " ++ pyReprFields fs

end

/-- Python `str` of an embedded value: strings render as themselves, the
rest as their `repr`. -/
def pyStr : JValue → String
  | .str s => s
  | v => pyRepr v

/-- Decimal digit run to a natural number, or `none` when empty or not
all digits. -/
def digitsToNat? (cs : List Char) : Option Nat :=
  if cs ≠ [] ∧ cs.all Char.isDigit then
    some (cs.foldl (fun a c => a * 10 + (c.toNat - 48)) 0)
  else none

/-- Python `int` applied to a string: optional surrounding whitespace, an
optional sign, then decimal digits; anything else raises ValueError
(returns `none` here). -/
def pyIntOfString (s : String) : Option Int :=
  let cs := ((s.toList.dropWhile Char.isWhitespace).reverse.dropWhile
    Char.isWhitespace).reverse
  match cs with
  | '-' :: rest => (digitsToNat? rest).map (fun n => -(n : Int))
  | '+' :: rest => (digitsToNat? rest).map (fun n => (n : Int))
  | rest => (digitsToNat? rest).map (fun n => (n : Int))

/-- Lookup in a parsed JSON object (Python dicts have unique keys). -/
def jsonGet (fields : List (String × JValue)) (key : String) : Option JValue :=
  (fields.find? (fun p => p.1 == key)).map Prod.snd

/-- Python `request_json.get(key, None)`: an absent key yields `None`,
embedded as `null`. -/
def getJ (fields : List (String × JValue)) (key : String) : JValue :=
  (jsonGet fields key).getD .null

/-- Python `v is None` test on an embedded value. -/
def JValue.isNull : JValue → Bool
  | .null => true
  | _ => false

/-- Embeds a possibly-None Python value as an optional. -/
def optOfJ (v : JValue) : Option JValue := if v.isNull then none else some v

/-- Python iteration (`for x in v`): lists yield their elements, strings
their one-character substrings, dicts their keys; other values raise
TypeError. -/
def pyIter : JValue → Except PyExc (List JValue)
  | .arr es => .ok es
  | .str s => .ok (s.toList.map (fun c => .str (String.singleton c)))
  | .obj fs => .ok (fs.map (fun p => .str p.1))
  | _ => .error (.other "TypeError: object is not iterable")

/-- Python `int(v)` on an embedded value. -/
def pyInt : JValue → Except PyExc Int
  | .num n => .ok n
  | .bool b => .ok (if b then 1 else 0)
  | .str s =>
    match pyIntOfString s with
    | some n => .ok n
    | none => .error (.other "ValueError: invalid literal for int() with base 10")
  | _ => .error (.other "TypeError: int() argument must be a string or a number")

/-- Extraction step of a Python string join: every joined element must
itself be a string, else TypeError. -/
def extractStrs : List JValue → Except PyExc (List String)
  | [] => .ok []
  | .str s :: rest =>
    match extractStrs rest with
    | .ok ss => .ok (s :: ss)
    | .error e => .error e
  | _ :: _ => .error (.other "TypeError: sequence item: expected str instance")

/-- Python `\x22,\x22.join(elems)` over embedded values. -/
def pyJoinStrs (elems : List JValue) : Except PyExc String :=
  (extractStrs elems).map (String.intercalate ",")

/-! ## Search-request normalization (`routes.py`, `stac_search`) -/

/-- The canonical keyword arguments `stac_search` passes to the catalog
store call `get_collection_items`. -/
structure SearchQuery where
  collections : Option String
  bbox : Option String
  datetime : Option JValue
  ids : Option String
  page : Int
  limit : Int
  intersects : Option JValue
  query : Option JValue

/-- The fields the POST branch of `stac_search` extracts from the JSON
body before the `page` and `limit` coercions, in source order: `bbox`,
`ids`, `collections` comma-joined, `datetime`, `intersects`, `query`
copied verbatim (absent or null means None). -/
structure PostFields where
  bbox : Option String
  datetime : Option JValue
  ids : Option String
  intersects : Option JValue
  query : Option JValue
  collections : Option String

/-- Field extraction of the POST branch of `stac_search` (`routes.py`
lines 328 to 342). -/
def stac_search_post_fields (json : List (String × JValue)) : Except PyExc PostFields :=
  match (if (getJ json "bbox").isNull then Except.ok none
         else (pyIter (getJ json "bbox")).map
           (fun xs => some (String.intercalate "," (xs.map pyStr)))) with
  | .error e => .error e
  | .ok bbox =>
    let datetime := optOfJ (getJ json "datetime")
    match (if (getJ json "ids").isNull then Except.ok none
           else (pyIter (getJ json "ids")).bind (fun xs => (pyJoinStrs xs).map some)) with
    | .error e => .error e
    | .ok ids =>
      let intersects := optOfJ (getJ json "intersects")
      let query := optOfJ (getJ json "query")
      match (if (getJ json "collections").isNull then Except.ok none
             else (pyIter (getJ json "collections")).bind
               (fun xs => (pyJoinStrs xs).map some)) with
      | .error e => .error e
      | .ok collections => .ok ⟨bbox, datetime, ids, intersects, query, collections⟩

/-- POST branch of `stac_search`: field extraction, then `page` and
`limit` coerced with Python `int`, defaulting to 1 and 10 only when the
key is absent (`routes.py` lines 344 to 345). -/
def stac_search_post (json : List (String × JValue)) : Except PyExc SearchQuery :=
  match stac_search_post_fields json with
  | .error e => .error e
  | .ok f =>
    match pyInt ((jsonGet json "page").getD (.num 1)) with
    | .error e => .error e
    | .ok page =>
      match pyInt ((jsonGet json "limit").getD (.num 10)) with
      | .error e => .error e
      | .ok limit =>
        .ok ⟨f.collections, f.bbox, f.datetime, f.ids, page, limit, f.intersects, f.query⟩

/-- Lookup of a GET query parameter (`request.args.get`). -/
def argsGet (args : List (String × String)) (key : String) : Option String :=
  (args.find? (fun p => p.1 == key)).map Prod.snd

/-- GET integer parameter: `int(request.args.get(key, default))`. -/
def getIntParam (args : List (String × String)) (key : String) (dflt : Int) :
    Except PyExc Int :=
  match argsGet args key with
  | none => .ok dflt
  | some s =>
    match pyIntOfString s with
    | some n => .ok n
    | none => .error (.other "ValueError: invalid literal for int() with base 10")

/-- GET branch of `stac_search` (`routes.py` lines 349 to 355). -/
def stac_search_get (args : List (String × String)) : Except PyExc SearchQuery :=
  match getIntParam args "page" 1 with
  | .error e => .error e
  | .ok page =>
    match getIntParam args "limit" 10 with
    | .error e => .error e
    | .ok limit =>
      .ok ⟨argsGet args "collections", argsGet args "bbox",
        (argsGet args "datetime").map JValue.str, argsGet args "ids",
        page, limit, none, none⟩

/-- The HTTP method of the search request. -/
inductive ReqMethod where
  | get
  | post
deriving Repr, DecidableEq

/-- Request normalization of `stac_search`: POST requires a JSON body
(else `abort(400, ...)`); GET reads the query string. -/
def stac_search_normalize (method : ReqMethod) (is_json : Bool)
    (json : List (String × JValue)) (args : List (String × String)) :
    Except PyExc SearchQuery :=
  match method with
  | .post =>
    if is_json then stac_search_post json
    else .error (.http 400 "POST Request must be an application/json")
  | .get => stac_search_get args

/-- The status the caller sees when normalization raises and the failure
reaches the error handlers. -/
def searchErrorStatus (method : ReqMethod) (is_json : Bool)
    (json : List (String × JValue)) (args : List (String × String)) : Option Nat :=
  match stac_search_normalize method is_json json args with
  | .error e => some (dispatch_error e).status
  | .ok _ => none

/-- C2 counterexample: a GET search whose `page` is not integer-coercible
fails with HTTP status 500, not 400 — the ValueError raised by `int` is
not an HTTPException, so the generic handler maps it to the internal
server error. -/
theorem c2_counterexample :
    searchErrorStatus .get true [] [("page", "abc")] = some 500 ∧
    searchErrorStatus .get true [] [("page", "abc")] ≠ some 400 := by
  decide

/-- C2 (amended): for every search request (GET or POST) in which the
supplied `page` or `limit` value is not integer-coercible (and the
preceding extraction steps succeed), the request fails as an unexpected
internal error with HTTP status 500, not as a 400 client input error. -/
theorem c2_nonint_page_limit_gives_500 (args : List (String × String))
    (json : List (String × JValue)) (s : String) :
    (argsGet args "page" = some s → pyIntOfString s = none →
      searchErrorStatus .get true json args = some 500) ∧
    (∀ p : Int, getIntParam args "page" 1 = .ok p → argsGet args "limit" = some s →
      pyIntOfString s = none → searchErrorStatus .get true json args = some 500) ∧
    (∀ f m, stac_search_post_fields json = .ok f →
      pyInt ((jsonGet json "page").getD (.num 1)) = .error (.other m) →
      searchErrorStatus .post true json args = some 500) ∧
    (∀ f pg m, stac_search_post_fields json = .ok f →
      pyInt ((jsonGet json "page").getD (.num 1)) = .ok pg →
      pyInt ((jsonGet json "limit").getD (.num 10)) = .error (.other m) →
      searchErrorStatus .post true json args = some 500) := by
  refine ⟨?_, ?_, ?_, ?_⟩
  · intro hp hn
    simp [searchErrorStatus, stac_search_normalize, stac_search_get, getIntParam, hp, hn,
      dispatch_error, handle_exception, internalServerErrorCode]
  · intro p hpok hl hn
    have hlimit : getIntParam args "limit" 10 =
        .error (.other "ValueError: invalid literal for int() with base 10") := by
      simp [getIntParam, hl, hn]
    simp [searchErrorStatus, stac_search_normalize, stac_search_get, hpok, hlimit,
      dispatch_error, handle_exception, internalServerErrorCode]
  · intro f m hf hp
    simp [searchErrorStatus, stac_search_normalize, stac_search_post, hf, hp,
      dispatch_error, handle_exception, internalServerErrorCode]
  · intro f pg m hf hp hl
    simp [searchErrorStatus, stac_search_normalize, stac_search_post, hf, hp, hl,
      dispatch_error, handle_exception, internalServerErrorCode]

/-- Witness for C2 in all four positions: GET page, GET limit, POST page,
POST limit. -/
theorem c2_witness :
    searchErrorStatus .get true [] [("page", "7a")] = some 500 ∧
    searchErrorStatus .get true [] [("limit", "x")] = some 500 ∧
    searchErrorStatus .post true [("page", JValue.str "7a")] [] = some 500 ∧
    searchErrorStatus .post true [("limit", JValue.arr [])] [] = some 500 := by
  refine ⟨?_, ?_, ?_, ?_⟩
  · exact (c2_nonint_page_limit_gives_500 [("page", "7a")] [] "7a").1 rfl rfl
  · exact (c2_nonint_page_limit_gives_500 [("limit", "x")] [] "x").2.1 1 rfl rfl rfl
  · exact (c2_nonint_page_limit_gives_500 [] [("page", JValue.str "7a")] "").2.2.1
      ⟨none, none, none, none, none, none⟩
      "ValueError: invalid literal for int() with base 10" rfl rfl
  · exact (c2_nonint_page_limit_gives_500 [] [("limit", JValue.arr [])] "").2.2.2
      ⟨none, none, none, none, none, none⟩ 1
      "TypeError: int() argument must be a string or a number" rfl rfl rfl

/-! ## GET and POST normalization equivalence -/

theorem map_pyStr_num (xs : List Int) :
    (xs.map JValue.num).map pyStr = xs.map toString := by
  induction xs with
  | nil => rfl
  | cons x rest ih => simp [ih, pyStr, pyRepr]

theorem map_pyStr_comp_num (xs : List Int) :
    List.map (pyStr ∘ JValue.num) xs = List.map toString xs := by
  rw [← List.map_map]
  exact map_pyStr_num xs

theorem extractStrs_map_str (l : List String) :
    extractStrs (l.map JValue.str) = .ok l := by
  induction l with
  | nil => rfl
  | cons s rest ih => simp [extractStrs, ih]

/-- C5: a GET query string carrying the comma-joined string forms and a
POST JSON body carrying the equivalent structured `bbox`, `datetime`,
`ids`, `collections` normalize to the identical canonical argument set
passed to the item search of the catalog store. -/
theorem c5_get_post_equivalence
    (json : List (String × JValue)) (args : List (String × String))
    (bb : Option (List Int)) (dt : Option String) (ids0 cols0 : Option (List String))
    (hjb : jsonGet json "bbox" = bb.map (fun xs => JValue.arr (xs.map JValue.num)))
    (hab : argsGet args "bbox" = bb.map (fun xs => String.intercalate "," (xs.map toString)))
    (hjd : jsonGet json "datetime" = dt.map JValue.str)
    (had : argsGet args "datetime" = dt)
    (hji : jsonGet json "ids" = ids0.map (fun l => JValue.arr (l.map JValue.str)))
    (hai : argsGet args "ids" = ids0.map (String.intercalate ","))
    (hjc : jsonGet json "collections" = cols0.map (fun l => JValue.arr (l.map JValue.str)))
    (hac : argsGet args "collections" = cols0.map (String.intercalate ","))
    (hjint : jsonGet json "intersects" = none)
    (hjq : jsonGet json "query" = none)
    (hjp : jsonGet json "page" = none) (hjl : jsonGet json "limit" = none)
    (hap : argsGet args "page" = none) (hal : argsGet args "limit" = none) :
    stac_search_post json = stac_search_get args ∧
    stac_search_post json = Except.ok ⟨cols0.map (String.intercalate ","),
      bb.map (fun xs => String.intercalate "," (xs.map toString)), dt.map JValue.str,
      ids0.map (String.intercalate ","), 1, 10, none, none⟩ := by
  have hfields : stac_search_post_fields json = .ok
      ⟨bb.map (fun xs => String.intercalate "," (xs.map toString)), dt.map JValue.str,
        ids0.map (String.intercalate ","), none, none,
        cols0.map (String.intercalate ",")⟩ := by
    rcases bb with - | xs <;> rcases dt with - | d <;>
      rcases ids0 with - | il <;> rcases cols0 with - | cl <;>
      simp [stac_search_post_fields, getJ, hjb, hjd, hji, hjc, hjint, hjq,
        JValue.isNull, pyIter, optOfJ, pyJoinStrs, extractStrs_map_str, map_pyStr_num,
        map_pyStr_comp_num, Except.map, Except.bind]
  have hpost : stac_search_post json = Except.ok ⟨cols0.map (String.intercalate ","),
      bb.map (fun xs => String.intercalate "," (xs.map toString)), dt.map JValue.str,
      ids0.map (String.intercalate ","), 1, 10, none, none⟩ := by
    simp [stac_search_post, hfields, hjp, hjl, pyInt]
  have hget : stac_search_get args = Except.ok ⟨cols0.map (String.intercalate ","),
      bb.map (fun xs => String.intercalate "," (xs.map toString)), dt.map JValue.str,
      ids0.map (String.intercalate ","), 1, 10, none, none⟩ := by
    simp [stac_search_get, getIntParam, hab, had, hai, hac, hap, hal]
  exact ⟨hpost.trans hget.symm, hpost⟩

/-- Witness for C5 at a concrete search with all four filters present. -/
theorem c5_witness :
    stac_search_post
        [("bbox", JValue.arr [.num (-60), .num (-10), .num (-50), .num 0]),
         ("datetime", JValue.str "2020-01-01/2020-12-31"),
         ("ids", JValue.arr [.str "a", .str "b"]),
         ("collections", JValue.arr [.str "c1"])] =
      stac_search_get
        [("bbox", "-60,-10,-50,0"), ("datetime", "2020-01-01/2020-12-31"),
         ("ids", "a,b"), ("collections", "c1")] ∧
    stac_search_post
        [("bbox", JValue.arr [.num (-60), .num (-10), .num (-50), .num 0]),
         ("datetime", JValue.str "2020-01-01/2020-12-31"),
         ("ids", JValue.arr [.str "a", .str "b"]),
         ("collections", JValue.arr [.str "c1"])] =
      Except.ok ⟨some "c1", some "-60,-10,-50,0",
        some (JValue.str "2020-01-01/2020-12-31"), some "a,b", 1, 10, none, none⟩ := by
  have h := c5_get_post_equivalence
    [("bbox", JValue.arr [.num (-60), .num (-10), .num (-50), .num 0]),
     ("datetime", JValue.str "2020-01-01/2020-12-31"),
     ("ids", JValue.arr [.str "a", .str "b"]),
     ("collections", JValue.arr [.str "c1"])]
    [("bbox", "-60,-10,-50,0"), ("datetime", "2020-01-01/2020-12-31"),
     ("ids", "a,b"), ("collections", "c1")]
    (some [-60, -10, -50, 0]) (some "2020-01-01/2020-12-31")
    (some ["a", "b"]) (some ["c1"])
    rfl rfl rfl rfl rfl rfl rfl rfl rfl rfl rfl rfl rfl rfl
  exact ⟨h.1, h.2⟩

/-! ## Pagination links (`stac_search` lines 387 to 418 and
`collection_items` lines 272 to 289) -/

/-- A navigation link dict as the routes build it: `href` and `rel`
always; `body`, `method` and `merge` only on POST-shaped pagination
links. -/
structure NavLink where
  href : String
  rel : String
  body : Option (List (String × JValue)) := none
  method : Option String := none
  merge : Option Bool := none

/-- werkzeug MultiDict `args[key] = value` on the copied query
parameters: the first pair with the key is replaced in place and later
pairs with it dropped; a missing key is appended at the end. -/
def assocSet : List (String × String) → String → String → List (String × String)
  | [], k, v => [(k, v)]
  | (k0, v0) :: rest, k, v =>
    if k0 == k then (k, v) :: rest.filter (fun p => !(p.1 == k))
    else (k0, v0) :: assocSet rest k v

/-- Python dict `body[key] = value` on the deep-copied JSON body: replace
in place if present (parsed JSON objects have unique keys), else append. -/
def dictSet : List (String × JValue) → String → JValue → List (String × JValue)
  | [], k, v => [(k, v)]
  | (k0, v0) :: rest, k, v =>
    if k0 == k then (k, v) :: rest else (k0, v0) :: dictSet rest k v

/-- Modelled from the spec: werkzeug `url_encode` renders the parameter
pairs as key=value joined by ampersands (percent-escaping of reserved
characters is not modelled; the keys and page numbers the claims involve
contain none). -/
def url_encode : List (String × String) → String
  | [] => ""
  | [p] => p.1 ++ "=" ++ p.2
  | p :: rest => p.1 ++ "=" ++ p.2 ++ "&" ++ url_encode rest

/-- The pagination state of the `Page` object returned by the catalog
store, as read by the link-building code. -/
structure PageInfo where
  has_next : Bool
  has_prev : Bool
  next_num : Int
  prev_num : Int

/-- The query-string suffix of a pagination href: a question mark plus
the encoded parameters when the parameter set is nonempty, else nothing
(the f-string conditional in the source). -/
def qsSuffix (args : List (String × String)) : String :=
  if args.length > 0 then "?" ++ url_encode args else ""

/-- Pagination links of `collection_items`: the contents of the response
links list after the `has_next` and `has_prev` appends. The args
mutation persists from the next branch into the prev branch, as in the
source. -/
def collection_items_page_links (base collection_id : String)
    (reqArgs : List (String × String)) (items : PageInfo) : List NavLink :=
  let args0 := reqArgs
  let st1 :=
    if items.has_next then
      let args := assocSet args0 "page" (toString items.next_num)
      ([{ href := base ++ "/collections/" ++ collection_id ++ "/items" ++ qsSuffix args,
          rel := "next" : NavLink }], args)
    else (([] : List NavLink), args0)
  let links2 :=
    if items.has_prev then
      let args := assocSet st1.2 "page" (toString items.prev_num)
      [{ href := base ++ "/collections/" ++ collection_id ++ "/items" ++ qsSuffix args,
         rel := "prev" : NavLink }]
    else []
  st1.1 ++ links2

/-- Pagination links of `stac_search`: for GET the page number is written
into the copied query args (and persists into the prev branch); for POST
the args stay the query args of the request URL and the link gains a deep
copy of the JSON body with page overwritten, method POST and merge
true. -/
def stac_search_page_links (base : String) (method : ReqMethod)
    (reqArgs : List (String × String)) (request_json : List (String × JValue))
    (items : PageInfo) : List NavLink :=
  let args0 := reqArgs
  let st1 :=
    if items.has_next then
      let args := if method = .get then assocSet args0 "page" (toString items.next_num)
        else args0
      let next_links : NavLink := { href := base ++ "/search" ++ qsSuffix args, rel := "next" }
      let next_links := if method = .post then
          { next_links with
              body := some (dictSet request_json "page" (.num items.next_num)),
              method := some "POST",
              merge := some true }
        else next_links
      ([next_links], args)
    else (([] : List NavLink), args0)
  let links2 :=
    if items.has_prev then
      let args := if method = .get then assocSet st1.2 "page" (toString items.prev_num)
        else st1.2
      let prev_links : NavLink := { href := base ++ "/search" ++ qsSuffix args, rel := "prev" }
      let prev_links := if method = .post then
          { prev_links with
              body := some (dictSet request_json "page" (.num items.prev_num)),
              method := some "POST",
              merge := some true }
        else prev_links
      [prev_links]
    else []
  st1.1 ++ links2

/-- C6: for both `stac_search` and `collection_items`, the assembled
links contain exactly one next link when `has_next` and none otherwise,
and exactly one prev link when `has_prev` and none otherwise — so a next
link appears iff `has_next`, a prev link iff `has_prev`, and at most one
of each. -/
theorem c6_next_prev_links (base cid : String) (method : ReqMethod)
    (reqArgs : List (String × String)) (request_json : List (String × JValue))
    (items : PageInfo) :
    ((stac_search_page_links base method reqArgs request_json items).countP
        (fun l => l.rel == "next") = if items.has_next then 1 else 0) ∧
    ((stac_search_page_links base method reqArgs request_json items).countP
        (fun l => l.rel == "prev") = if items.has_prev then 1 else 0) ∧
    ((collection_items_page_links base cid reqArgs items).countP
        (fun l => l.rel == "next") = if items.has_next then 1 else 0) ∧
    ((collection_items_page_links base cid reqArgs items).countP
        (fun l => l.rel == "prev") = if items.has_prev then 1 else 0) := by
  cases hn : items.has_next <;> cases hp : items.has_prev <;> cases method <;>
    simp [stac_search_page_links, collection_items_page_links, hn, hp,
      List.countP_append, List.countP_cons]

/-- Witness for C6 at a concrete page with a next page only. -/
theorem c6_witness :
    (stac_search_page_links "" .get [] [] ⟨true, false, 2, 0⟩).countP
        (fun l => l.rel == "next") = 1 ∧
    (collection_items_page_links "" "c" [] ⟨true, false, 2, 0⟩).countP
        (fun l => l.rel == "prev") = 0 := by
  have h := c6_next_prev_links "" "c" .get [] [] ⟨true, false, 2, 0⟩
  exact ⟨h.1, h.2.2.2⟩

/-! ## POST-shaped pagination links -/

theorem jsonGet_dictSet_self (fields : List (String × JValue)) (k : String) (v : JValue) :
    jsonGet (dictSet fields k v) k = some v := by
  induction fields with
  | nil => simp [dictSet, jsonGet]
  | cons q rest ih =>
    cases q with
    | mk k0 v0 =>
      by_cases hq : (k0 == k) = true
      · simp [dictSet, hq, jsonGet]
      · simp only [Bool.not_eq_true] at hq
        simp only [dictSet, hq, Bool.false_eq_true, if_false]
        simpa [jsonGet, hq] using ih

theorem jsonGet_dictSet_other (fields : List (String × JValue)) (k k2 : String)
    (v : JValue) (hne : k2 ≠ k) :
    jsonGet (dictSet fields k v) k2 = jsonGet fields k2 := by
  have hkk2 : (k == k2) = false := beq_eq_false_iff_ne.mpr (fun h => hne h.symm)
  induction fields with
  | nil => simp [dictSet, jsonGet, hkk2]
  | cons q rest ih =>
    cases q with
    | mk k0 v0 =>
      by_cases hq : (k0 == k) = true
      · have hk0 : k0 = k := eq_of_beq hq
        have hq2 : (k0 == k2) = false :=
          beq_eq_false_iff_ne.mpr (fun h => hne (hk0 ▸ h).symm)
        simp [dictSet, hq, jsonGet, hkk2, hq2]
      · simp only [Bool.not_eq_true] at hq
        by_cases hq2 : (k0 == k2) = true
        · simp [dictSet, hq, jsonGet, hq2]
        · simp only [Bool.not_eq_true] at hq2
          simp only [dictSet, hq, Bool.false_eq_true, if_false]
          simpa [jsonGet, hq2] using ih

/-- C7 counterexample: a POST-shaped search whose request URL carries the
query parameter x=1 emits a next link whose href is not the bare search
path — the copied URL query args are re-encoded into the href even on
POST. -/
theorem c7_counterexample :
    (stac_search_page_links "" .post [("x", "1")] [("page", JValue.num 1)]
        ⟨true, false, 2, 0⟩).map NavLink.href = ["/search?x=1"] ∧
    ("/search?x=1" : String) ≠ "/search" := by
  exact ⟨rfl, by decide⟩

/-- C7 (amended): for a POST-shaped search whose request URL carries no
query parameters, every emitted pagination link has href the bare search
path, method POST, merge true, and body a clone of the original JSON
body in which only the page field is overwritten (with next_num for
next, prev_num for prev): the page lookup in the clone yields the new
number and every other key reads as in the original, which itself is
untouched. -/
theorem c7_post_links (base : String) (request_json : List (String × JValue))
    (items : PageInfo) (v : JValue) :
    stac_search_page_links base .post [] request_json items =
      ((if items.has_next then
          [{ href := base ++ "/search", rel := "next",
             body := some (dictSet request_json "page" (.num items.next_num)),
             method := some "POST", merge := some true : NavLink }] else []) ++
        (if items.has_prev then
          [{ href := base ++ "/search", rel := "prev",
             body := some (dictSet request_json "page" (.num items.prev_num)),
             method := some "POST", merge := some true : NavLink }] else [])) ∧
    jsonGet (dictSet request_json "page" v) "page" = some v ∧
    (∀ k, k ≠ "page" → jsonGet (dictSet request_json "page" v) k = jsonGet request_json k) := by
  refine ⟨?_, jsonGet_dictSet_self request_json "page" v,
    fun k hk => jsonGet_dictSet_other request_json "page" k v hk⟩
  cases hn : items.has_next <;> cases hp : items.has_prev <;>
    simp [stac_search_page_links, hn, hp, qsSuffix, String.append_empty]

/-- Witness for C7 at a concrete POST body with both directions present. -/
theorem c7_witness :
    stac_search_page_links "" .post [] [("ids", JValue.arr []), ("page", JValue.num 5)]
        ⟨true, true, 6, 4⟩ =
      [{ href := "/search", rel := "next",
         body := some [("ids", JValue.arr []), ("page", JValue.num 6)],
         method := some "POST", merge := some true },
       { href := "/search", rel := "prev",
         body := some [("ids", JValue.arr []), ("page", JValue.num 4)],
         method := some "POST", merge := some true }] ∧
    jsonGet (dictSet [("ids", JValue.arr []), ("page", JValue.num 5)] "page"
        (JValue.num 9)) "ids" = some (JValue.arr []) := by
  have h := c7_post_links "" [("ids", JValue.arr []), ("page", JValue.num 5)]
    ⟨true, true, 6, 4⟩ (JValue.num 9)
  refine ⟨?_, h.2.2 "ids" (by decide)⟩
  rw [h.1]
  rfl

/-! ## GET-shaped pagination links always carry a query string -/

theorem mem_assocSet_self (l : List (String × String)) (k v : String) :
    (k, v) ∈ assocSet l k v := by
  induction l with
  | nil => simp [assocSet]
  | cons q rest ih =>
    cases q with
    | mk k0 v0 =>
      by_cases hq : (k0 == k) = true
      · simp [assocSet, hq]
      · simp only [Bool.not_eq_true] at hq
        simp [assocSet, hq, ih]

theorem assocSet_ne_nil (l : List (String × String)) (k v : String) :
    assocSet l k v ≠ [] := by
  cases l with
  | nil => simp [assocSet]
  | cons q rest =>
    cases q with
    | mk k0 v0 =>
      by_cases hq : (k0 == k) = true
      · simp [assocSet, hq]
      · simp only [Bool.not_eq_true] at hq
        simp [assocSet, hq]

theorem url_encode_cons_ne_empty (p : String × String) (rest : List (String × String)) :
    url_encode (p :: rest) ≠ "" := by
  cases rest with
  | nil =>
    intro he
    have hlen := congrArg String.length he
    simp [url_encode, String.length_append] at hlen
    exact absurd hlen.1.2 (by decide)
  | cons q qs =>
    intro he
    have hlen := congrArg String.length he
    simp [url_encode, String.length_append] at hlen
    exact absurd hlen.1.1.1.2 (by decide)

theorem url_encode_ne_empty (l : List (String × String)) (h : l ≠ []) :
    url_encode l ≠ "" := by
  cases l with
  | nil => exact absurd rfl h
  | cons p rest => exact url_encode_cons_ne_empty p rest

theorem qsSuffix_of_ne_nil (args : List (String × String)) (h : args ≠ []) :
    qsSuffix args = "?" ++ url_encode args := by
  cases args with
  | nil => exact absurd rfl h
  | cons p rest => simp [qsSuffix]

/-- C10: on GET-shaped requests, every pagination link emitted by either
endpoint carries a nonempty query string: its href is the endpoint path
followed by a question mark and the encoding of a parameter set that
contains the page key, set to next_num for the next link and prev_num
for the prev link, and that encoding is never the empty string — the
source branch that omits the question mark is unreachable for these
links. -/
theorem c10_get_links_have_query (base cid : String)
    (reqArgs : List (String × String)) (request_json : List (String × JValue))
    (items : PageInfo) :
    (∀ l ∈ stac_search_page_links base .get reqArgs request_json items,
      ∃ qargs, ("page", toString (if l.rel == "next" then items.next_num
          else items.prev_num)) ∈ qargs ∧
        l.href = base ++ "/search" ++ ("?" ++ url_encode qargs) ∧
        url_encode qargs ≠ "") ∧
    (∀ l ∈ collection_items_page_links base cid reqArgs items,
      ∃ qargs, ("page", toString (if l.rel == "next" then items.next_num
          else items.prev_num)) ∈ qargs ∧
        l.href = base ++ "/collections/" ++ cid ++ "/items" ++ ("?" ++ url_encode qargs) ∧
        url_encode qargs ≠ "") := by
  constructor
  · intro l hl
    cases hn : items.has_next <;> cases hp : items.has_prev <;>
      simp [stac_search_page_links, hn, hp] at hl
    · subst hl
      refine ⟨assocSet reqArgs "page" (toString items.prev_num), ?_, ?_,
        url_encode_ne_empty _ (assocSet_ne_nil _ _ _)⟩
      · simpa using mem_assocSet_self reqArgs "page" (toString items.prev_num)
      · simp [qsSuffix_of_ne_nil _ (assocSet_ne_nil _ _ _)]
    · subst hl
      refine ⟨assocSet reqArgs "page" (toString items.next_num), ?_, ?_,
        url_encode_ne_empty _ (assocSet_ne_nil _ _ _)⟩
      · simpa using mem_assocSet_self reqArgs "page" (toString items.next_num)
      · simp [qsSuffix_of_ne_nil _ (assocSet_ne_nil _ _ _)]
    · rcases hl with hl | hl
      · subst hl
        refine ⟨assocSet reqArgs "page" (toString items.next_num), ?_, ?_,
          url_encode_ne_empty _ (assocSet_ne_nil _ _ _)⟩
        · simpa using mem_assocSet_self reqArgs "page" (toString items.next_num)
        · simp [qsSuffix_of_ne_nil _ (assocSet_ne_nil _ _ _)]
      · subst hl
        refine ⟨assocSet (assocSet reqArgs "page" (toString items.next_num)) "page"
            (toString items.prev_num), ?_, ?_,
          url_encode_ne_empty _ (assocSet_ne_nil _ _ _)⟩
        · simpa using mem_assocSet_self _ "page" (toString items.prev_num)
        · simp [qsSuffix_of_ne_nil _ (assocSet_ne_nil _ _ _)]
  · intro l hl
    cases hn : items.has_next <;> cases hp : items.has_prev <;>
      simp [collection_items_page_links, hn, hp] at hl
    · subst hl
      refine ⟨assocSet reqArgs "page" (toString items.prev_num), ?_, ?_,
        url_encode_ne_empty _ (assocSet_ne_nil _ _ _)⟩
      · simpa using mem_assocSet_self reqArgs "page" (toString items.prev_num)
      · simp [qsSuffix_of_ne_nil _ (assocSet_ne_nil _ _ _)]
    · subst hl
      refine ⟨assocSet reqArgs "page" (toString items.next_num), ?_, ?_,
        url_encode_ne_empty _ (assocSet_ne_nil _ _ _)⟩
      · simpa using mem_assocSet_self reqArgs "page" (toString items.next_num)
      · simp [qsSuffix_of_ne_nil _ (assocSet_ne_nil _ _ _)]
    · rcases hl with hl | hl
      · subst hl
        refine ⟨assocSet reqArgs "page" (toString items.next_num), ?_, ?_,
          url_encode_ne_empty _ (assocSet_ne_nil _ _ _)⟩
        · simpa using mem_assocSet_self reqArgs "page" (toString items.next_num)
        · simp [qsSuffix_of_ne_nil _ (assocSet_ne_nil _ _ _)]
      · subst hl
        refine ⟨assocSet (assocSet reqArgs "page" (toString items.next_num)) "page"
            (toString items.prev_num), ?_, ?_,
          url_encode_ne_empty _ (assocSet_ne_nil _ _ _)⟩
        · simpa using mem_assocSet_self _ "page" (toString items.prev_num)
        · simp [qsSuffix_of_ne_nil _ (assocSet_ne_nil _ _ _)]

/-- Witness for C10 at a concrete GET-shaped next link. -/
theorem c10_witness :
    ∃ qargs, (("page", "2") : String × String) ∈ qargs ∧
      ("/search?page=2" : String) = "" ++ "/search" ++ ("?" ++ url_encode qargs) ∧
      url_encode qargs ≠ "" := by
  have hmem : ({ href := "/search?page=2", rel := "next" : NavLink } ∈
      stac_search_page_links "" .get [] [] ⟨true, false, 2, 0⟩) := by
    have he : stac_search_page_links "" .get [] [] ⟨true, false, 2, 0⟩ =
        [{ href := "/search?page=2", rel := "next" }] := rfl
    rw [he]
    exact List.mem_singleton.mpr rfl
  exact (c10_get_links_have_query "" "c" [] [] ⟨true, false, 2, 0⟩).1
    { href := "/search?page=2", rel := "next" } hmem

end BdcStac
